import Mathlib

/-!
# Verification of the civitrack issue-lifecycle and discovery engine

Shallow embedding of the issue controller (`src/controllers/issueController.ts`),
the geospatial helpers (`src/utils/geospatial.ts`) and the data model
(`src/models/*.ts`) of the civitrack repository, together with proofs about the
spec-level claims on this code.

Modelling conventions:
* The relational store is a record of lists of rows, one list per table, kept in
  insertion order (Sequelize `create` appends a row; `destroy`/`update` by
  predicate are list filter/map).
* Primary keys are drawn from a monotone counter `nextId` in the state, standing
  in for the UUIDs issued by the database.  `createdAt` timestamps are likewise
  taken from this monotone counter, so later-created rows have strictly larger
  `createdAt`, which is all the `ORDER BY createdAt DESC` queries observe.
* JavaScript numbers that the store merely copies and compares to `0` are
  embedded as exact rationals (`ℚ`); the geospatial arithmetic is embedded over
  the real numbers (`ℝ`).
* Each controller function is embedded as a function from the store state and
  the (already request-validated) inputs to an HTTP response paired with the
  successor state.  An HTTP response is its status code and message.
* A fallible database primitive is modelled, where a claim needs it, by a
  failure oracle `fail : Nat → Bool` saying whether the n-th primitive of the
  operation throws; `createIssue` runs its primitives outside any transaction,
  so the effects of primitives preceding a failing one persist.
-/

namespace Civitrack

/-- Issue status enum, `src/types/enums.ts` (values used in models and controller). -/
inductive IssueStatus
  | reported
  | under_review
  | in_progress
  | resolved
  | closed
deriving DecidableEq, Repr

/-- Issue category enum, `src/types/enums.ts`. -/
inductive IssueCategory
  | road
  | water
  | electricity
  | waste
  | safety
  | other
deriving DecidableEq, Repr

/-- Printed form of a status, used for default status-log comments. -/
def statusText : IssueStatus → String
  | .reported => "reported"
  | .under_review => "under_review"
  | .in_progress => "in_progress"
  | .resolved => "resolved"
  | .closed => "closed"

/-- User role: the controller only distinguishes the string `admin` from the rest. -/
inductive Role
  | user
  | admin
deriving DecidableEq, Repr

/-- The authenticated principal that the `authenticate` middleware attaches to the
request (`req.user`): its id and role. -/
structure Principal where
  id : Nat
  role : Role
deriving DecidableEq, Repr

/-- `Location` row, `src/models/Location.ts`: latitude, longitude, optional address. -/
structure Location where
  id : Nat
  latitude : ℚ
  longitude : ℚ
  address : Option String
deriving DecidableEq, Repr

/-- `Issue` row as the controller reads and writes it (`userId`, `locationId`,
`images`, `status`, `createdAt` used for `ORDER BY createdAt DESC`). -/
structure Issue where
  id : Nat
  title : String
  description : String
  category : IssueCategory
  status : IssueStatus
  userId : Nat
  locationId : Nat
  images : List String
  createdAt : Nat
deriving DecidableEq, Repr

/-- `StatusLog` row, `src/models/StatusLog.ts`: `oldStatus` is nullable (null only
for the creation entry).  Rows appear in the store list in creation order. -/
structure StatusLog where
  id : Nat
  issueId : Nat
  userId : Nat
  oldStatus : Option IssueStatus
  newStatus : IssueStatus
  comment : String
deriving DecidableEq, Repr

/-- `Flag` row, `src/models/Flag.ts`: `resolved` defaults to `false` on insert. -/
structure Flag where
  id : Nat
  issueId : Nat
  userId : Nat
  reason : String
  resolved : Bool
deriving DecidableEq, Repr

/-- State of a `StatusRequest` (`pending`/`approved`/`rejected`). -/
inductive RequestState
  | pending
  | approved
  | rejected
deriving DecidableEq, Repr

/-- `StatusRequest` row, from the shape exchanged with the backend in
`src/services/statusRequestService.ts`. -/
structure StatusRequest where
  id : Nat
  issueId : Nat
  requestingUserId : Nat
  currentStatus : IssueStatus
  requestedStatus : IssueStatus
  reason : Option String
  state : RequestState
  reviewerUserId : Option Nat
  reviewComment : Option String
deriving DecidableEq, Repr

/-- The relational store: one list of rows per table, plus the fresh-id counter. -/
structure StoreState where
  issues : List Issue
  locations : List Location
  statusLogs : List StatusLog
  flags : List Flag
  statusRequests : List StatusRequest
  nextId : Nat
deriving DecidableEq, Repr

/-- The empty store. -/
def StoreState.empty : StoreState :=
  { issues := [], locations := [], statusLogs := [], flags := [],
    statusRequests := [], nextId := 0 }

/-- An HTTP response as the `utils/response` helpers build one (the second
document of `src/src/utils/apiRetry.ts`): the code set via `res.status` and the
message of the JSON payload (the data/error payload fields carry no
claim-relevant information and are omitted). -/
structure ApiResponse where
  status : Nat
  message : String
deriving DecidableEq, Repr

/-- `successResponse(res, data, message, statusCode = 200)` from
`utils/response` (second document of `src/src/utils/apiRetry.ts`):
`res.status(statusCode)` with a success payload.  The embedding takes the
status code explicitly; controller call sites pass 200 where the source relies
on the default. -/
def successResponse (message : String) (code : Nat) : ApiResponse :=
  { status := code, message := message }

/-- `errorResponse(res, message, statusCode = 500, errors?)` from
`utils/response`, with the status code explicit. -/
def errorResponseWith (message : String) (statusCode : Nat) : ApiResponse :=
  { status := statusCode, message := message }

/-- `errorResponse` as the controllers call it, relying on the default
`statusCode = 500`. -/
def errorResponse (message : String) : ApiResponse :=
  errorResponseWith message 500

/-- `badRequestResponse(res, message, errors?)` from `utils/response`:
`errorResponse(res, message, 400, errors)`. -/
def badRequestResponse (message : String) : ApiResponse :=
  errorResponseWith message 400

/-- `notFoundResponse(res, message)` from `utils/response`:
`errorResponse(res, message, 404)`. -/
def notFoundResponse (message : String) : ApiResponse :=
  errorResponseWith message 404

/-- `forbiddenResponse(res, message)` from `utils/response`:
`errorResponse(res, message, 403)`. -/
def forbiddenResponse (message : String) : ApiResponse :=
  errorResponseWith message 403

/-- Modelled from the spec: a Conflict response, HTTP 409.  `utils/response`
defines no conflict helper and no 409 response appears anywhere in the provided
files; spec section 7 maps `Conflict` to 409.  Used only by the spec-modelled
review workflow. -/
def conflictResponse (message : String) : ApiResponse :=
  { status := 409, message := message }

/-! ## JavaScript truthiness helpers

The controller uses `a || b` and `if (a && b)` on request-body values, where an
absent field, the empty string and the number `0` are falsy. -/

/-- `v || dflt` for an optional string (empty string is falsy). -/
def strOr (v : Option String) (dflt : String) : String :=
  match v with
  | some s => if s = "" then dflt else s
  | none => dflt

/-- `v || dflt` for an optional string against an optional default. -/
def strOrOpt (v : Option String) (dflt : Option String) : Option String :=
  match v with
  | some s => if s = "" then dflt else some s
  | none => dflt

/-- `v || dflt` for an optional number (`0` is falsy). -/
def qOr (v : Option ℚ) (dflt : ℚ) : ℚ :=
  match v with
  | some q => if q = 0 then dflt else q
  | none => dflt

/-- Truthiness of an optional number: present and nonzero. -/
def qTruthy (v : Option ℚ) : Bool :=
  match v with
  | some q => decide (q ≠ 0)
  | none => false

/-! ## createIssue (`issueController.ts`, lines 11-62) -/

/-- Body of a (request-validated) `POST /issues` call. -/
structure CreateIssueInput where
  userId : Nat
  title : String
  description : String
  category : Option IssueCategory
  latitude : ℚ
  longitude : ℚ
  address : Option String
  files : List String
deriving DecidableEq, Repr

/-- `createIssue` with a failure oracle for its three database inserts
(`Location.create`, `Issue.create`, `StatusLog.create`).  The source runs the
three `await Model.create` calls one after another with **no transaction**; a
throwing insert is caught by the surrounding `try` and answered with
`errorResponse`, while the rows already inserted stay in the store. -/
def createIssueWith (fail : Nat → Bool) (st : StoreState) (inp : CreateIssueInput) :
    ApiResponse × StoreState :=
  if fail 0 then (errorResponse "Error creating issue", st)
  else
    let locId := st.nextId
    let loc : Location :=
      { id := locId, latitude := inp.latitude, longitude := inp.longitude,
        address := inp.address }
    let st1 := { st with locations := st.locations ++ [loc], nextId := st.nextId + 1 }
    if fail 1 then (errorResponse "Error creating issue", st1)
    else
      let issId := st1.nextId
      let issue : Issue :=
        { id := issId, title := inp.title, description := inp.description,
          category := inp.category.getD IssueCategory.other,
          status := IssueStatus.reported, userId := inp.userId,
          locationId := locId, images := inp.files, createdAt := issId }
      let st2 := { st1 with issues := st1.issues ++ [issue], nextId := st1.nextId + 1 }
      if fail 2 then (errorResponse "Error creating issue", st2)
      else
        let log : StatusLog :=
          { id := st2.nextId, issueId := issId, userId := inp.userId,
            oldStatus := none, newStatus := IssueStatus.reported,
            comment := "Issue reported" }
        let st3 := { st2 with statusLogs := st2.statusLogs ++ [log], nextId := st2.nextId + 1 }
        (successResponse "Issue created successfully" 201, st3)

/-- `createIssue` on the path where every insert succeeds. -/
def createIssue (st : StoreState) (inp : CreateIssueInput) : ApiResponse × StoreState :=
  createIssueWith (fun _ => false) st inp

/-! ## updateIssue (`issueController.ts`, lines 222-316) -/

/-- Body of a (request-validated) `PUT /issues/:id` call; every field optional. -/
structure UpdateIssueInput where
  title : Option String
  description : Option String
  category : Option IssueCategory
  status : Option IssueStatus
  latitude : Option ℚ
  longitude : Option ℚ
  address : Option String
  statusComment : Option String
  files : Option (List String)
deriving DecidableEq, Repr

/-- `updateIssue`: find the issue; reject non-owner non-admin callers with the
bad-request helper; if a different status is supplied, insert a `StatusLog`;
if truthy latitude **and** longitude are supplied, update the location row;
merge the remaining fields with `||` defaults.  All inside one transaction
(modelled here as the success path of that transaction). -/
def updateIssue (st : StoreState) (user : Principal) (id : Nat)
    (inp : UpdateIssueInput) : ApiResponse × StoreState :=
  match st.issues.find? (fun i => i.id == id) with
  | none => (notFoundResponse "Issue not found", st)
  | some issue =>
    if issue.userId ≠ user.id ∧ user.role ≠ Role.admin then
      (badRequestResponse "You are not authorized to update this issue", st)
    else
      -- `if (status && status !== issue.status)`: create a status log
      let st1 : StoreState :=
        match inp.status with
        | some s =>
          if s ≠ issue.status then
            { st with
              statusLogs := st.statusLogs ++
                [{ id := st.nextId, issueId := issue.id, userId := user.id,
                   oldStatus := some issue.status, newStatus := s,
                   comment := strOr inp.statusComment
                     ("Status updated from " ++ statusText issue.status ++
                      " to " ++ statusText s) }],
              nextId := st.nextId + 1 }
          else st
        | none => st
      -- `if (latitude && longitude)`: update the owned location row
      let st2 : StoreState :=
        if qTruthy inp.latitude && qTruthy inp.longitude then
          { st1 with
            locations := st1.locations.map (fun loc : Location =>
              if loc.id == issue.locationId then
                { loc with
                  latitude := qOr inp.latitude loc.latitude,
                  longitude := qOr inp.longitude loc.longitude,
                  address := strOrOpt inp.address loc.address }
              else loc) }
        else st1
      -- `issue.update({...})` with `||` defaults; new images are appended
      let issue1 : Issue :=
        { issue with
          title := strOr inp.title issue.title,
          description := strOr inp.description issue.description,
          category := inp.category.getD issue.category,
          status := inp.status.getD issue.status,
          images :=
            match inp.files with
            | some fs => issue.images ++ fs
            | none => issue.images }
      let st3 :=
        { st2 with issues := st2.issues.map (fun i : Issue => if i.id == id then issue1 else i) }
      (successResponse "Issue updated successfully" 200, st3)

/-! ## deleteIssue (`issueController.ts`, lines 319-378) -/

/-- `deleteIssue`: find the issue; reject non-owner non-admin callers with the
bad-request helper; otherwise, in one transaction, destroy the issue's status
logs, its flags, the issue itself and then its location. -/
def deleteIssue (st : StoreState) (user : Principal) (id : Nat) :
    ApiResponse × StoreState :=
  match st.issues.find? (fun i => i.id == id) with
  | none => (notFoundResponse "Issue not found", st)
  | some issue =>
    if issue.userId ≠ user.id ∧ user.role ≠ Role.admin then
      (badRequestResponse "You are not authorized to delete this issue", st)
    else
      let st1 :=
        { st with
          statusLogs := st.statusLogs.filter (fun l => l.issueId ≠ id),
          flags := st.flags.filter (fun f => f.issueId ≠ id),
          issues := st.issues.filter (fun i => i.id ≠ id),
          locations := st.locations.filter (fun loc => loc.id ≠ issue.locationId) }
      (successResponse "Issue deleted successfully" 200, st1)

/-! ## flagIssue (`issueController.ts`, lines 381-424) -/

/-- `flagIssue`: 404 if the issue is absent; the bad-request helper if this user
already flagged this issue; otherwise insert a flag (`resolved` defaults to
`false` per the model definition). -/
def flagIssue (st : StoreState) (user : Principal) (id : Nat) (reason : String) :
    ApiResponse × StoreState :=
  match st.issues.find? (fun i => i.id == id) with
  | none => (notFoundResponse "Issue not found", st)
  | some _ =>
    match st.flags.find? (fun f => f.issueId == id && f.userId == user.id) with
    | some _ => (badRequestResponse "You have already flagged this issue", st)
    | none =>
      let flag : Flag :=
        { id := st.nextId, issueId := id, userId := user.id, reason := reason,
          resolved := false }
      (successResponse "Issue flagged successfully" 200,
        { st with flags := st.flags ++ [flag], nextId := st.nextId + 1 })

/-! ## getIssueById (`issueController.ts`, lines 188-219) -/

/-- `getIssueById`: 404 if absent, 200 otherwise. -/
def getIssueById (st : StoreState) (id : Nat) : ApiResponse :=
  match st.issues.find? (fun i => i.id == id) with
  | none => notFoundResponse "Issue not found"
  | some _ => successResponse "Issue retrieved successfully" 200

/-! ## The status-request review workflow

Only the HTTP client of this workflow is among the provided files
(`src/services/statusRequestService.ts`); the backend controller it calls is
missing, so the two functions below are modelled from the spec. -/

/-- Review action, `approve` or `reject`. -/
inductive ReviewAction
  | approve
  | reject
deriving DecidableEq, Repr

/-- Modelled from the spec: `LifecycleManager.changeStatus` (spec section 4.2),
whose backend controller is not among the provided files.  Loads the issue; an
explicit same-value request is a no-op that returns success and writes no log;
otherwise the AccessGuard check (reporter or admin), then, in one transaction,
the status update paired with a `StatusLog` insert. -/
def changeStatus (st : StoreState) (actor : Principal) (issueId : Nat)
    (newStatus : IssueStatus) (comment : Option String) : ApiResponse × StoreState :=
  match st.issues.find? (fun i => i.id == issueId) with
  | none => (notFoundResponse "Issue not found", st)
  | some issue =>
    if newStatus = issue.status then
      (successResponse "Status unchanged" 200, st)
    else if issue.userId ≠ actor.id ∧ actor.role ≠ Role.admin then
      (forbiddenResponse "Forbidden", st)
    else
      (successResponse "Status updated" 200,
        { st with
          statusLogs := st.statusLogs ++
            [{ id := st.nextId, issueId := issue.id, userId := actor.id,
               oldStatus := some issue.status, newStatus := newStatus,
               comment := comment.getD "Status updated" }],
          issues := st.issues.map (fun i : Issue =>
            if i.id == issueId then { i with status := newStatus } else i),
          nextId := st.nextId + 1 })

/-- Modelled from the spec: `review(requestId, reviewerId, action, reviewComment)`
(spec section 4.4), whose backend controller is not among the provided files.
Administrator-only (`Forbidden` otherwise); `Conflict` if the request is no
longer pending; on `approve`, in one transaction, mark the request approved and
invoke `changeStatus(issueId, reviewerId, requestedStatus, reviewComment)` so
that both commit together or neither does; on `reject`, mark the request
rejected and leave the issue untouched. -/
def adminReviewStatusRequest (st : StoreState) (reviewer : Principal) (reqId : Nat)
    (action : ReviewAction) (comment : Option String) : ApiResponse × StoreState :=
  if reviewer.role ≠ Role.admin then
    (forbiddenResponse "Admin privileges required", st)
  else
    match st.statusRequests.find? (fun r => r.id == reqId) with
    | none => (notFoundResponse "Status request not found", st)
    | some req =>
      if req.state ≠ RequestState.pending then
        (conflictResponse "Status request already reviewed", st)
      else
        match action with
        | .reject =>
          let req1 : StatusRequest :=
            { req with
              state := RequestState.rejected,
              reviewerUserId := some reviewer.id,
              reviewComment := comment }
          (successResponse "Status request rejected" 200,
            { st with statusRequests := st.statusRequests.map (fun r : StatusRequest =>
                if r.id == reqId then req1 else r) })
        | .approve =>
          let req1 : StatusRequest :=
            { req with
              state := RequestState.approved,
              reviewerUserId := some reviewer.id,
              reviewComment := comment }
          let res := changeStatus st reviewer req.issueId req.requestedStatus comment
          if res.1.status = 200 then
            (successResponse "Status request approved" 200,
              { res.2 with statusRequests := res.2.statusRequests.map (fun r : StatusRequest =>
                  if r.id == reqId then req1 else r) })
          else
            (res.1, st)

/-! ## Lifecycle operation sequences (for the audit-trail invariant) -/

/-- One lifecycle operation: a `createIssue` or an `updateIssue` call. -/
inductive LifecycleOp
  | create (inp : CreateIssueInput)
  | update (user : Principal) (id : Nat) (inp : UpdateIssueInput)

/-- The store state after one lifecycle operation. -/
def applyOp (st : StoreState) : LifecycleOp → StoreState
  | .create inp => (createIssue st inp).2
  | .update user id inp => (updateIssue st user id inp).2

/-- The store state after a sequence of lifecycle operations. -/
def runOps (st : StoreState) (ops : List LifecycleOp) : StoreState :=
  ops.foldl applyOp st

/-- The status logs of one issue, in creation order. -/
def logsFor (st : StoreState) (issueId : Nat) : List StatusLog :=
  st.statusLogs.filter (fun l => l.issueId == issueId)

/-- `chainSegment s logs t`: replaying `logs` from current status `s`, each
entry's `oldStatus` equals the status reached so far and the final status is
`t`. -/
def chainSegment : IssueStatus → List StatusLog → IssueStatus → Bool
  | s, [], t => s == t
  | s, l :: ls, t => (l.oldStatus == some s) && chainSegment l.newStatus ls t

/-- The audit-trail replay property of claim C1: the first entry has
`oldStatus = null` and `newStatus = reported`, each later entry's `oldStatus`
equals the previous entry's `newStatus`, and the last entry's `newStatus` is the
issue's current status. -/
def auditChain (logs : List StatusLog) (current : IssueStatus) : Bool :=
  match logs with
  | [] => false
  | l :: ls =>
    (l.oldStatus == none) && (l.newStatus == IssueStatus.reported) &&
      chainSegment l.newStatus ls current

/-! ## Geospatial helpers (`src/utils/geospatial.ts`) -/

noncomputable section

/-- Earth radius in kilometers. -/
def EARTH_RADIUS_KM : ℝ := 6371

/-- `toRadians`: degrees times π over 180. -/
def toRadians (degrees : ℝ) : ℝ := degrees * (Real.pi / 180)

/-- JavaScript `Math.atan2 y x`, embedded over the reals (the geospatial code
only ever reaches the branches with `x ≥ 0` and `y ≥ 0`). -/
def atan2 (y x : ℝ) : ℝ :=
  if 0 < x then Real.arctan (y / x)
  else if x < 0 ∧ 0 ≤ y then Real.arctan (y / x) + Real.pi
  else if x < 0 ∧ y < 0 then Real.arctan (y / x) - Real.pi
  else if x = 0 ∧ 0 < y then Real.pi / 2
  else if x = 0 ∧ y < 0 then -(Real.pi / 2)
  else 0

/-- `calculateDistance` (`geospatial.ts`, lines 14-29): Haversine great-circle
distance in kilometers. -/
def calculateDistance (lat1 lon1 lat2 lon2 : ℝ) : ℝ :=
  let dLat := toRadians (lat2 - lat1)
  let dLon := toRadians (lon2 - lon1)
  let a :=
    Real.sin (dLat / 2) * Real.sin (dLat / 2) +
      Real.cos (toRadians lat1) * Real.cos (toRadians lat2) *
        (Real.sin (dLon / 2) * Real.sin (dLon / 2))
  let c := 2 * atan2 (Real.sqrt a) (Real.sqrt (1 - a))
  EARTH_RADIUS_KM * c

/-- `calculateBoundingBox` (`geospatial.ts`, lines 47-62): the box
`[minLat, minLon, maxLat, maxLon]` for a center and radius, from the constants
`degLatPerKm = 1/111.32` and `degLonPerKm = 1/(111.32 * cos latRadian)`. -/
def calculateBoundingBox (latitude longitude radiusKm : ℝ) : ℝ × ℝ × ℝ × ℝ :=
  let latRadian := toRadians latitude
  let degLatPerKm : ℝ := 1 / 111.32
  let degLonPerKm : ℝ := 1 / (111.32 * Real.cos latRadian)
  let latDelta := radiusKm * degLatPerKm
  let lonDelta := radiusKm * degLonPerKm
  (latitude - latDelta, longitude - lonDelta, latitude + latDelta, longitude + lonDelta)

/-- The `Op.between` query of `getNearbyIssues`: the location's coordinates fall
inside the box `[minLat, minLon, maxLat, maxLon]`. -/
def inBoundingBox (bb : ℝ × ℝ × ℝ × ℝ) (loc : Location) : Prop :=
  bb.1 ≤ (loc.latitude : ℝ) ∧ (loc.latitude : ℝ) ≤ bb.2.2.1 ∧
    bb.2.1 ≤ (loc.longitude : ℝ) ∧ (loc.longitude : ℝ) ≤ bb.2.2.2

/-- "ORDER BY createdAt DESC": the newer-reported of two issues comes first. -/
def newerFirst (a b : Issue) : Prop := b.createdAt ≤ a.createdAt

instance : DecidableRel newerFirst := fun a b => Nat.decLe b.createdAt a.createdAt

instance : IsTotal Issue newerFirst :=
  ⟨fun a b => Or.symm (Nat.le_total a.createdAt b.createdAt)⟩

instance : IsTrans Issue newerFirst :=
  ⟨fun _ _ _ hab hbc => Nat.le_trans hbc hab⟩

open Classical in
/-- `getNearbyIssues` (`issueController.ts`, lines 132-185): bounding-box
pre-filter over the locations table, exact Haversine filter over the survivors,
then the issues owning the surviving location ids, ordered by descending
creation time. -/
def getNearbyIssues (st : StoreState) (lat lng radiusKm : ℝ) : List Issue :=
  let bb := calculateBoundingBox lat lng radiusKm
  let locations := st.locations.filter (fun loc => decide (inBoundingBox bb loc))
  let locationIdsInRadius :=
    (locations.filter (fun loc =>
      decide (calculateDistance lat lng (loc.latitude : ℝ) (loc.longitude : ℝ) ≤ radiusKm))).map
      Location.id
  let issues := st.issues.filter (fun i => locationIdsInRadius.contains i.locationId)
  List.insertionSort newerFirst issues

end

/-! ## Sample fixtures used by witnesses and counterexamples -/

/-- A sample issue reported by user 1, stored with id 0 and location 10. -/
def sampleIssue : Issue :=
  { id := 0, title := "Pothole", description := "Deep pothole", category := IssueCategory.road,
    status := IssueStatus.reported, userId := 1, locationId := 10, images := [],
    createdAt := 0 }

/-- The location row owned by `sampleIssue`. -/
def sampleLocation : Location :=
  { id := 10, latitude := 40, longitude := -74, address := some "Main St" }

/-- The creation status log of `sampleIssue`. -/
def sampleLog : StatusLog :=
  { id := 11, issueId := 0, userId := 1, oldStatus := none,
    newStatus := IssueStatus.reported, comment := "Issue reported" }

/-- A store holding `sampleIssue` with its location and creation log. -/
def sampleState : StoreState :=
  { issues := [sampleIssue], locations := [sampleLocation], statusLogs := [sampleLog],
    flags := [], statusRequests := [], nextId := 20 }

/-- An update request body with every field absent. -/
def emptyUpdate : UpdateIssueInput :=
  { title := none, description := none, category := none, status := none,
    latitude := none, longitude := none, address := none, statusComment := none,
    files := none }

/-- An update request carrying latitude 0, a truthy longitude and a new address. -/
def zeroLatUpdate : UpdateIssueInput :=
  { emptyUpdate with latitude := some 0, longitude := some 7, address := some "Elsewhere" }

/-- A sample (request-validated) issue-creation body. -/
def sampleCreateInp : CreateIssueInput :=
  { userId := 1, title := "Pothole", description := "Deep pothole", category := none,
    latitude := 40, longitude := -74, address := none, files := [] }

/-- A pending status request targeting `in_progress` on `sampleIssue`. -/
def pendingRequest : StatusRequest :=
  { id := 12, issueId := 0, requestingUserId := 2, currentStatus := IssueStatus.reported,
    requestedStatus := IssueStatus.in_progress, reason := none,
    state := RequestState.pending, reviewerUserId := none, reviewComment := none }

/-- A store holding `sampleIssue` and `pendingRequest`. -/
def reviewState : StoreState :=
  { sampleState with statusRequests := [pendingRequest] }

/-- A pending request targeting the issue's current status. -/
def pendingSameRequest : StatusRequest :=
  { pendingRequest with id := 13, requestedStatus := IssueStatus.reported }

/-- A store holding `sampleIssue` and `pendingSameRequest`. -/
def reviewSameState : StoreState :=
  { sampleState with statusRequests := [pendingSameRequest] }

/-- The invariant carried through lifecycle operation sequences: primary keys
are below the fresh-id counter, and every stored issue's status-log replay is a
correct audit chain ending at its current status. -/
def WellFormed (st : StoreState) : Prop :=
  (∀ i ∈ st.issues, i.id < st.nextId) ∧
  (∀ l ∈ st.statusLogs, l.issueId < st.nextId) ∧
  (∀ i ∈ st.issues, auditChain (logsFor st i.id) i.status = true)

/-- The issue record created by one `create` operation on the empty store. -/
def createdIssue1 : Issue :=
  { id := 1, title := "Pothole", description := "Deep pothole",
    category := IssueCategory.other, status := IssueStatus.reported, userId := 1,
    locationId := 0, images := [], createdAt := 1 }

/-- The survival predicate of `getNearbyIssues`: some stored location is owned
by the issue, lies inside the bounding box, and is within the Haversine
radius. -/
def NearbyCandidate (st : StoreState) (lat lng radiusKm : ℝ) (i : Issue) : Prop :=
  ∃ loc ∈ st.locations, loc.id = i.locationId ∧
    inBoundingBox (calculateBoundingBox lat lng radiusKm) loc ∧
    calculateDistance lat lng (loc.latitude : ℝ) (loc.longitude : ℝ) ≤ radiusKm

/-- The location at latitude 1.001 on the prime meridian. -/
def nearLocation : Location :=
  { id := 30, latitude := 1.001, longitude := 0, address := none }

/-- The issue owning `nearLocation`. -/
def nearIssue : Issue :=
  { id := 31, title := "Crack", description := "Road crack",
    category := IssueCategory.road, status := IssueStatus.reported, userId := 1,
    locationId := 30, images := [], createdAt := 5 }

/-- A store holding only `nearIssue` and its location. -/
def nearState : StoreState :=
  { issues := [nearIssue], locations := [nearLocation], statusLogs := [],
    flags := [], statusRequests := [], nextId := 40 }


/-! ## Basic list lemmas -/

/-- After replacing the row with primary key `id` in a table, looking the key up
finds the replacement. -/
theorem find?_map_replace {l : List Issue} {id : Nat} {issue : Issue} (issue1 : Issue)
    (h : l.find? (fun i => i.id == id) = some issue) (hid : (issue1.id == id) = true) :
    (l.map (fun i : Issue => if i.id == id then issue1 else i)).find?
      (fun i => i.id == id) = some issue1 := by
  induction l with
  | nil => simp at h
  | cons a as ih =>
    by_cases hc : (a.id == id) = true
    · simp only [List.map_cons, if_pos hc]
      exact List.find?_cons_of_pos _ hid
    · rw [@List.find?_cons_of_neg _ (fun i : Issue => i.id == id) a as hc] at h
      simp only [List.map_cons, if_neg hc]
      rw [@List.find?_cons_of_neg _ (fun i : Issue => i.id == id) a _ hc]
      exact ih h

/-! ## Claim C5: a same-status update request is a no-op -/

/-- C5: for every existing Issue and every authorized caller, an update that
explicitly requests a new status equal to the Issue's current status succeeds
(HTTP 200), leaves the Issue's status unchanged, and appends zero StatusLog
rows. -/
theorem same_status_update_is_noop (st : StoreState) (user : Principal) (id : Nat)
    (inp : UpdateIssueInput) (issue : Issue)
    (hfind : st.issues.find? (fun i => i.id == id) = some issue)
    (hauth : issue.userId = user.id ∨ user.role = Role.admin)
    (hstatus : inp.status = some issue.status) :
    (updateIssue st user id inp).1.status = 200 ∧
    (updateIssue st user id inp).2.statusLogs = st.statusLogs ∧
    ((updateIssue st user id inp).2.issues.find? (fun i => i.id == id)).map Issue.status =
      some issue.status := by
  have hcond : ¬(issue.userId ≠ user.id ∧ user.role ≠ Role.admin) := by
    rcases hauth with h | h
    · exact fun hc => hc.1 h
    · exact fun hc => hc.2 h
  have hid : (issue.id == id) = true := by
    have := List.find?_some hfind
    simpa using this
  simp only [updateIssue, hfind, if_neg hcond, hstatus, ne_self_iff_false, if_false,
    ite_false, Option.getD_some]
  refine ⟨rfl, ?_, ?_⟩
  · split <;> rfl
  · rw [Option.map_eq_some']
    split <;> split <;> exact ⟨_, find?_map_replace _ hfind hid, rfl⟩

/-- Witness for C5: the reporter re-requests `reported` on `sampleIssue`. -/
theorem same_status_update_is_noop_witness :
    sampleState.issues.find? (fun i => i.id == 0) = some sampleIssue ∧
    ((updateIssue sampleState ⟨1, Role.user⟩ 0
        { emptyUpdate with status := some IssueStatus.reported }).1.status = 200 ∧
      (updateIssue sampleState ⟨1, Role.user⟩ 0
        { emptyUpdate with status := some IssueStatus.reported }).2.statusLogs =
        sampleState.statusLogs ∧
      ((updateIssue sampleState ⟨1, Role.user⟩ 0
        { emptyUpdate with status := some IssueStatus.reported }).2.issues.find?
          (fun i => i.id == 0)).map Issue.status = some sampleIssue.status) :=
  ⟨rfl, same_status_update_is_noop sampleState ⟨1, Role.user⟩ 0
    { emptyUpdate with status := some IssueStatus.reported } sampleIssue rfl
    (Or.inl rfl) rfl⟩

/-! ## Claim C10: a zero coordinate skips the location update entirely -/

/-- C10: for every existing Issue and authorized caller, an `updateIssue` call
whose supplied latitude is 0 or whose supplied longitude is 0 leaves the
locations table (in particular the Issue's Location row: latitude, longitude
and address) exactly unchanged, because `if (latitude && longitude)` treats the
number 0 as falsy. -/
theorem zero_coordinate_update_keeps_location (st : StoreState) (user : Principal)
    (id : Nat) (inp : UpdateIssueInput) (issue : Issue)
    (hfind : st.issues.find? (fun i => i.id == id) = some issue)
    (hauth : issue.userId = user.id ∨ user.role = Role.admin)
    (hzero : inp.latitude = some 0 ∨ inp.longitude = some 0) :
    (updateIssue st user id inp).2.locations = st.locations := by
  have hcond : ¬(issue.userId ≠ user.id ∧ user.role ≠ Role.admin) := by
    rcases hauth with h | h
    · exact fun hc => hc.1 h
    · exact fun hc => hc.2 h
  have hguard : (qTruthy inp.latitude && qTruthy inp.longitude) = false := by
    rcases hzero with h | h <;> simp [h, qTruthy]
  simp only [updateIssue, hfind, if_neg hcond, hguard, Bool.false_eq_true, if_false]
  split
  · split <;> rfl
  · rfl

/-- Witness for C10: supplying latitude 0 with a truthy longitude and a fresh
address changes nothing in the locations table. -/
theorem zero_coordinate_update_keeps_location_witness :
    sampleState.issues.find? (fun i => i.id == 0) = some sampleIssue ∧
    (updateIssue sampleState ⟨1, Role.user⟩ 0 zeroLatUpdate).2.locations =
      sampleState.locations :=
  ⟨rfl, zero_coordinate_update_keeps_location sampleState ⟨1, Role.user⟩ 0
    zeroLatUpdate sampleIssue rfl (Or.inl rfl) (Or.inl rfl)⟩

/-! ## Claim C6: unauthorized mutation attempts are rejected without state change -/

/-- C6 (amended): a caller who is neither the Issue's reporter nor an admin has
`updateIssue` and `deleteIssue` answered with the bad-request helper (HTTP 400,
message "You are not authorized to ..."), and the store state is returned
exactly unchanged.  (The spec's `Forbidden`/403 classification is what the
counterexample refutes; the no-state-change half of the claim holds.) -/
theorem unauthorized_update_delete_rejected (st : StoreState) (user : Principal)
    (id : Nat) (inp : UpdateIssueInput) (issue : Issue)
    (hfind : st.issues.find? (fun i => i.id == id) = some issue)
    (hown : issue.userId ≠ user.id) (hrole : user.role ≠ Role.admin) :
    updateIssue st user id inp =
      (badRequestResponse "You are not authorized to update this issue", st) ∧
    deleteIssue st user id =
      (badRequestResponse "You are not authorized to delete this issue", st) := by
  constructor
  · simp only [updateIssue, hfind, if_pos (And.intro hown hrole)]
  · simp only [deleteIssue, hfind, if_pos (And.intro hown hrole)]

/-- Witness for C6's amended theorem: user 2 (not the reporter, not admin). -/
theorem unauthorized_update_delete_rejected_witness :
    sampleState.issues.find? (fun i => i.id == 0) = some sampleIssue ∧
    (updateIssue sampleState ⟨2, Role.user⟩ 0 emptyUpdate =
      (badRequestResponse "You are not authorized to update this issue", sampleState) ∧
    deleteIssue sampleState ⟨2, Role.user⟩ 0 =
      (badRequestResponse "You are not authorized to delete this issue", sampleState)) :=
  ⟨rfl, unauthorized_update_delete_rejected sampleState ⟨2, Role.user⟩ 0 emptyUpdate
    sampleIssue rfl (by decide) (by decide)⟩

/-- C6 counterexample: the rejection carries HTTP status 400 (the bad-request
helper), not the 403 that the spec's `Forbidden` maps to, so the claim as
stated fails at this input. -/
theorem unauthorized_update_not_forbidden_counterexample :
    (updateIssue sampleState ⟨2, Role.user⟩ 0 emptyUpdate).1.status = 400 ∧
    (updateIssue sampleState ⟨2, Role.user⟩ 0 emptyUpdate).1.status ≠ 403 ∧
    (deleteIssue sampleState ⟨2, Role.user⟩ 0).1.status = 400 ∧
    (deleteIssue sampleState ⟨2, Role.user⟩ 0).1.status ≠ 403 := by
  refine ⟨rfl, by decide, rfl, by decide⟩

/-! ## Claim C4: a duplicate flag is rejected and only one Flag row exists -/

/-- C4 (amended): for an issue in the store not yet flagged by this user, the
first `flagIssue` call succeeds and inserts the one Flag row for the pair with
`resolved = false`; the second call with the same (issueId, userId) is answered
with the bad-request helper (HTTP 400, "You have already flagged this issue")
and changes nothing, so exactly one Flag row exists for the pair.  (The spec's
`Conflict`/409 classification is what the counterexample refutes.) -/
theorem duplicate_flag_rejected (st : StoreState) (user : Principal) (id : Nat)
    (reason1 reason2 : String) (issue : Issue)
    (hfind : st.issues.find? (fun i => i.id == id) = some issue)
    (hnone : st.flags.find? (fun f => f.issueId == id && f.userId == user.id) = none) :
    (flagIssue st user id reason1).1.status = 200 ∧
    (flagIssue st user id reason1).2.flags.filter
        (fun f => f.issueId == id && f.userId == user.id) =
      [{ id := st.nextId, issueId := id, userId := user.id, reason := reason1,
         resolved := false }] ∧
    flagIssue (flagIssue st user id reason1).2 user id reason2 =
      (badRequestResponse "You have already flagged this issue",
        (flagIssue st user id reason1).2) := by
  have hmem : ∀ f ∈ st.flags,
      ¬((fun f : Flag => f.issueId == id && f.userId == user.id) f = true) :=
    List.find?_eq_none.mp hnone
  refine ⟨?_, ?_, ?_⟩
  · simp only [flagIssue, hfind, hnone, successResponse]
  · simp only [flagIssue, hfind, hnone, List.filter_append]
    rw [List.filter_eq_nil_iff.mpr hmem]
    simp
  · simp only [flagIssue, hfind, hnone, List.find?_append]
    simp

/-- Witness for C4's amended theorem on the sample store. -/
theorem duplicate_flag_rejected_witness :
    sampleState.flags.find? (fun f => f.issueId == 0 && f.userId == 2) = none ∧
    ((flagIssue sampleState ⟨2, Role.user⟩ 0 "spam").1.status = 200 ∧
      (flagIssue sampleState ⟨2, Role.user⟩ 0 "spam").2.flags.filter
          (fun f => f.issueId == 0 && f.userId == 2) =
        [{ id := 20, issueId := 0, userId := 2, reason := "spam", resolved := false }] ∧
      flagIssue (flagIssue sampleState ⟨2, Role.user⟩ 0 "spam").2 ⟨2, Role.user⟩ 0 "again" =
        (badRequestResponse "You have already flagged this issue",
          (flagIssue sampleState ⟨2, Role.user⟩ 0 "spam").2)) :=
  ⟨rfl, duplicate_flag_rejected sampleState ⟨2, Role.user⟩ 0 "spam" "again"
    sampleIssue rfl rfl⟩

/-- C4 counterexample: the duplicate-flag rejection carries HTTP status 400,
not the 409 that the spec's `Conflict` maps to, so the claim as stated fails at
this input. -/
theorem duplicate_flag_not_conflict_counterexample :
    (flagIssue (flagIssue sampleState ⟨2, Role.user⟩ 0 "spam").2
        ⟨2, Role.user⟩ 0 "spam").1.status = 400 ∧
    (flagIssue (flagIssue sampleState ⟨2, Role.user⟩ 0 "spam").2
        ⟨2, Role.user⟩ 0 "spam").1.status ≠ 409 := by
  refine ⟨rfl, by decide⟩

/-! ## Claim C7: createIssue runs its three inserts without a transaction -/

/-- C7 (amended): the Location, Issue and StatusLog inserts of `createIssue`
run sequentially with no enclosing transaction; when the StatusLog insert
fails after the first two succeeded, the call reports an error (HTTP 500) yet
the Location and Issue rows persist, and no StatusLog row is written. -/
theorem createIssue_partial_persistence (st : StoreState) (inp : CreateIssueInput)
    (fail : Nat → Bool) (h0 : fail 0 = false) (h1 : fail 1 = false) (h2 : fail 2 = true) :
    (createIssueWith fail st inp).1.status = 500 ∧
    (createIssueWith fail st inp).2.locations.length = st.locations.length + 1 ∧
    (createIssueWith fail st inp).2.issues.length = st.issues.length + 1 ∧
    (createIssueWith fail st inp).2.statusLogs = st.statusLogs := by
  simp [createIssueWith, h0, h1, h2, errorResponse, errorResponseWith]

/-- Witness for C7's amended theorem: the oracle failing exactly the third insert. -/
theorem createIssue_partial_persistence_witness :
    ((fun n => n == 2) 0 = false ∧ (fun n => n == 2) 1 = false ∧
      (fun n => n == 2) 2 = true) ∧
    ((createIssueWith (fun n => n == 2) StoreState.empty sampleCreateInp).1.status = 500 ∧
      (createIssueWith (fun n => n == 2) StoreState.empty
          sampleCreateInp).2.locations.length = StoreState.empty.locations.length + 1 ∧
      (createIssueWith (fun n => n == 2) StoreState.empty
          sampleCreateInp).2.issues.length = StoreState.empty.issues.length + 1 ∧
      (createIssueWith (fun n => n == 2) StoreState.empty
          sampleCreateInp).2.statusLogs = StoreState.empty.statusLogs) :=
  ⟨⟨rfl, rfl, rfl⟩, createIssue_partial_persistence StoreState.empty sampleCreateInp
    (fun n => n == 2) rfl rfl rfl⟩

/-- C7 counterexample: with the StatusLog insert failing, `createIssue` answers
with an error but the Location and Issue rows are left persisted in the store,
so the all-or-nothing claim fails at this input. -/
theorem createIssue_not_atomic_counterexample :
    (createIssueWith (fun n => n == 2) StoreState.empty sampleCreateInp).1.status = 500 ∧
    (createIssueWith (fun n => n == 2) StoreState.empty sampleCreateInp).2.locations ≠ [] ∧
    (createIssueWith (fun n => n == 2) StoreState.empty sampleCreateInp).2.issues ≠ [] ∧
    (createIssueWith (fun n => n == 2) StoreState.empty sampleCreateInp).2.statusLogs = [] := by
  refine ⟨rfl, by decide, by decide, rfl⟩

/-! ## Claim C8: deleteIssue cascade postcondition -/

/-- C8: a successful authorized `deleteIssue` removes, in its transaction, every
StatusLog and Flag of the issue, the issue row itself and then its location row,
so a subsequent lookup finds none of them (in particular `getIssueById` answers
404); `deleteIssue` on an absent issue id answers 404 and changes nothing. -/
theorem deleteIssue_cascade :
    (∀ (st : StoreState) (user : Principal) (id : Nat) (issue : Issue),
      st.issues.find? (fun i => i.id == id) = some issue →
      (issue.userId = user.id ∨ user.role = Role.admin) →
      ((deleteIssue st user id).1.status = 200 ∧
        (∀ l ∈ (deleteIssue st user id).2.statusLogs, l.issueId ≠ id) ∧
        (∀ f ∈ (deleteIssue st user id).2.flags, f.issueId ≠ id) ∧
        (∀ i ∈ (deleteIssue st user id).2.issues, i.id ≠ id) ∧
        (∀ loc ∈ (deleteIssue st user id).2.locations, loc.id ≠ issue.locationId) ∧
        getIssueById (deleteIssue st user id).2 id = notFoundResponse "Issue not found")) ∧
    (∀ (st : StoreState) (user : Principal) (id : Nat),
      st.issues.find? (fun i => i.id == id) = none →
      deleteIssue st user id = (notFoundResponse "Issue not found", st)) := by
  constructor
  · intro st user id issue hfind hauth
    have hcond : ¬(issue.userId ≠ user.id ∧ user.role ≠ Role.admin) := by
      rcases hauth with h | h
      · exact fun hc => hc.1 h
      · exact fun hc => hc.2 h
    simp only [deleteIssue, hfind, if_neg hcond]
    refine ⟨rfl, ?_, ?_, ?_, ?_, ?_⟩
    · intro l hl
      exact of_decide_eq_true (List.mem_filter.mp hl).2
    · intro f hf
      exact of_decide_eq_true (List.mem_filter.mp hf).2
    · intro i hi
      exact of_decide_eq_true (List.mem_filter.mp hi).2
    · intro loc hloc
      exact of_decide_eq_true (List.mem_filter.mp hloc).2
    · have hnone : (st.issues.filter (fun i : Issue => decide (i.id ≠ id))).find?
          (fun i => i.id == id) = none := by
        rw [List.find?_eq_none]
        intro x hx
        have hne : x.id ≠ id := of_decide_eq_true (List.mem_filter.mp hx).2
        simpa using hne
      simp only [getIssueById, hnone]
  · intro st user id hnone
    simp only [deleteIssue, hnone]

/-- Witness for C8: deleting `sampleIssue` as its reporter, and deleting an
absent id from the empty store. -/
theorem deleteIssue_cascade_witness :
    sampleState.issues.find? (fun i => i.id == 0) = some sampleIssue ∧
    ((deleteIssue sampleState ⟨1, Role.user⟩ 0).1.status = 200 ∧
      getIssueById (deleteIssue sampleState ⟨1, Role.user⟩ 0).2 0 =
        notFoundResponse "Issue not found") ∧
    deleteIssue StoreState.empty ⟨1, Role.user⟩ 5 =
      (notFoundResponse "Issue not found", StoreState.empty) := by
  have h := deleteIssue_cascade
  refine ⟨rfl, ⟨?_, ?_⟩, ?_⟩
  · exact (h.1 sampleState ⟨1, Role.user⟩ 0 sampleIssue rfl (Or.inl rfl)).1
  · exact (h.1 sampleState ⟨1, Role.user⟩ 0 sampleIssue rfl (Or.inl rfl)).2.2.2.2.2
  · exact h.2 StoreState.empty ⟨1, Role.user⟩ 5 rfl

/-! ## Claim C9: reviewing a status request -/

/-- After an update-by-primary-key that preserves the key, looking the key up
finds the updated row. -/
theorem find?_map_key {α : Type} (key : α → Nat) {l : List α} {id : Nat} {a : α}
    (f : α → α) (h : l.find? (fun x => key x == id) = some a)
    (hf : (key (f a) == id) = true) :
    (l.map (fun x => if key x == id then f x else x)).find? (fun x => key x == id) =
      some (f a) := by
  induction l with
  | nil => simp at h
  | cons b bs ih =>
    by_cases hc : (key b == id) = true
    · rw [@List.find?_cons_of_pos _ (fun x => key x == id) b bs hc] at h
      injection h with h
      subst h
      simp only [List.map_cons, if_pos hc]
      exact List.find?_cons_of_pos _ hf
    · rw [@List.find?_cons_of_neg _ (fun x => key x == id) b bs hc] at h
      simp only [List.map_cons, if_neg hc]
      rw [@List.find?_cons_of_neg _ (fun x => key x == id) b _ hc]
      exact ih h

/-- C9 (amended): for every pending StatusRequest targeting status X, an
administrator's `approve` answers 200, leaves the Issue's status = X, appends
exactly one new StatusLog when X differs from the Issue's current status and
zero when the Issue already has status X, and makes the request terminal
(approved); `reject` answers 200, leaves the Issue and its StatusLogs exactly
unchanged, and makes the request terminal (rejected). -/
theorem review_status_request (st : StoreState) (reviewer : Principal) (reqId : Nat)
    (comment : Option String) (req : StatusRequest) (issue : Issue)
    (hrole : reviewer.role = Role.admin)
    (hreq : st.statusRequests.find? (fun r => r.id == reqId) = some req)
    (hpend : req.state = RequestState.pending)
    (hiss : st.issues.find? (fun i => i.id == req.issueId) = some issue) :
    ((adminReviewStatusRequest st reviewer reqId ReviewAction.approve comment).1.status = 200 ∧
      (((adminReviewStatusRequest st reviewer reqId ReviewAction.approve
          comment).2.issues.find? (fun i => i.id == req.issueId)).map Issue.status =
        some req.requestedStatus) ∧
      (logsFor (adminReviewStatusRequest st reviewer reqId ReviewAction.approve
          comment).2 req.issueId).length =
        (logsFor st req.issueId).length +
          (if issue.status = req.requestedStatus then 0 else 1) ∧
      ((adminReviewStatusRequest st reviewer reqId ReviewAction.approve
          comment).2.statusRequests.find? (fun r => r.id == reqId)).map
        StatusRequest.state = some RequestState.approved) ∧
    ((adminReviewStatusRequest st reviewer reqId ReviewAction.reject comment).1.status = 200 ∧
      (adminReviewStatusRequest st reviewer reqId ReviewAction.reject comment).2.issues =
        st.issues ∧
      (adminReviewStatusRequest st reviewer reqId ReviewAction.reject comment).2.statusLogs =
        st.statusLogs ∧
      ((adminReviewStatusRequest st reviewer reqId ReviewAction.reject
          comment).2.statusRequests.find? (fun r => r.id == reqId)).map
        StatusRequest.state = some RequestState.rejected) := by
  have hnr : ¬(reviewer.role ≠ Role.admin) := fun hc => hc hrole
  have hnp : ¬(req.state ≠ RequestState.pending) := fun hc => hc hpend
  have hissId : (issue.id == req.issueId) = true := by
    simpa using List.find?_some hiss
  constructor
  · by_cases hsame : req.requestedStatus = issue.status
    · simp only [adminReviewStatusRequest, if_neg hnr, hreq, if_neg hnp, changeStatus,
        hiss, if_pos hsame, successResponse]
      refine ⟨rfl, ?_, ?_, ?_⟩
      · rw [Option.map_eq_some']
        exact ⟨issue, hiss, by rw [hsame]⟩
      · simp [logsFor, hsame]
      · rw [Option.map_eq_some']
        exact ⟨_, find?_map_key StatusRequest.id _ hreq (by simpa using List.find?_some hreq),
          rfl⟩
    · have hauth : ¬(issue.userId ≠ reviewer.id ∧ reviewer.role ≠ Role.admin) :=
        fun hc => hc.2 hrole
      simp only [adminReviewStatusRequest, if_neg hnr, hreq, if_neg hnp, changeStatus,
        hiss, if_neg hsame, if_neg hauth, successResponse]
      refine ⟨rfl, ?_, ?_, ?_⟩
      · rw [Option.map_eq_some']
        refine ⟨_, find?_map_key Issue.id _ hiss hissId, rfl⟩
      · simp only [if_true, logsFor, List.filter_append, List.length_append]
        have h1 : (List.filter (fun l : StatusLog => l.issueId == req.issueId)
            [{ id := st.nextId, issueId := issue.id, userId := reviewer.id,
               oldStatus := some issue.status, newStatus := req.requestedStatus,
               comment := comment.getD "Status updated" }]).length = 1 := by
          simp [List.filter, hissId]
        rw [h1, if_neg (fun hc => hsame hc.symm)]
      · rw [Option.map_eq_some']
        exact ⟨_, find?_map_key StatusRequest.id _ hreq (by simpa using List.find?_some hreq),
          rfl⟩
  · simp only [adminReviewStatusRequest, if_neg hnr, hreq, if_neg hnp, successResponse,
      true_and, and_true]
    rw [Option.map_eq_some']
    exact ⟨_, find?_map_key StatusRequest.id _ hreq (by simpa using List.find?_some hreq),
      rfl⟩

/-- Witness for C9's amended theorem: an admin approves `pendingRequest`, and an
admin rejects it; the hypotheses hold by computation. -/
theorem review_status_request_witness :
    (pendingRequest.state = RequestState.pending ∧
      reviewState.issues.find? (fun i => i.id == pendingRequest.issueId) =
        some sampleIssue) ∧
    ((adminReviewStatusRequest reviewState ⟨9, Role.admin⟩ 12 ReviewAction.approve
        none).1.status = 200 ∧
      ((adminReviewStatusRequest reviewState ⟨9, Role.admin⟩ 12 ReviewAction.approve
          none).2.statusRequests.find? (fun r => r.id == 12)).map StatusRequest.state =
        some RequestState.approved) ∧
    (adminReviewStatusRequest reviewState ⟨9, Role.admin⟩ 12 ReviewAction.reject
        none).2.statusLogs = reviewState.statusLogs := by
  have h := review_status_request reviewState ⟨9, Role.admin⟩ 12 none pendingRequest
    sampleIssue rfl rfl rfl rfl
  exact ⟨⟨rfl, rfl⟩, ⟨h.1.1, h.1.2.2.2⟩, h.2.2.2.1⟩

/-- C9 counterexample: approving a pending request that targets the issue's
current status (a same-value change is a no-op for the lifecycle manager)
succeeds and terminates the request but appends zero StatusLog rows, so the
claim's "appends exactly one new StatusLog" fails at this input. -/
theorem review_approve_no_log_counterexample :
    (adminReviewStatusRequest reviewSameState ⟨9, Role.admin⟩ 13 ReviewAction.approve
        none).1.status = 200 ∧
    ((adminReviewStatusRequest reviewSameState ⟨9, Role.admin⟩ 13 ReviewAction.approve
        none).2.statusRequests.find? (fun r => r.id == 13)).map StatusRequest.state =
      some RequestState.approved ∧
    (adminReviewStatusRequest reviewSameState ⟨9, Role.admin⟩ 13 ReviewAction.approve
        none).2.statusLogs.length = reviewSameState.statusLogs.length := by
  exact ⟨rfl, rfl, rfl⟩

/-! ## Claim C1: the audit-trail chain invariant -/

/-- Extending a correct replay segment by one log entry whose `oldStatus` is the
segment's final status. -/
theorem chainSegment_append {ls : List StatusLog} {s t u : IssueStatus} (l : StatusLog)
    (h : chainSegment s ls t = true) (hold : l.oldStatus = some t)
    (hnew : l.newStatus = u) : chainSegment s (ls ++ [l]) u = true := by
  induction ls generalizing s with
  | nil =>
    have hst : s = t := by simpa [chainSegment] using h
    subst hst
    simp [chainSegment, hold, hnew]
  | cons a as ih =>
    simp only [List.cons_append, chainSegment, Bool.and_eq_true] at h ⊢
    exact ⟨h.1, ih h.2⟩

/-- Extending a correct audit chain by one log entry whose `oldStatus` is the
current status. -/
theorem auditChain_append {logs : List StatusLog} {cur nu : IssueStatus} (l : StatusLog)
    (h : auditChain logs cur = true) (hold : l.oldStatus = some cur)
    (hnew : l.newStatus = nu) : auditChain (logs ++ [l]) nu = true := by
  cases logs with
  | nil => simp [auditChain] at h
  | cons l0 ls =>
    simp only [auditChain, Bool.and_eq_true] at h
    simp only [List.cons_append, auditChain, Bool.and_eq_true]
    exact ⟨⟨h.1.1, h.1.2⟩, chainSegment_append l h.2 hold hnew⟩

/-- The empty store is well-formed. -/
theorem wellFormed_empty : WellFormed StoreState.empty := by
  refine ⟨?_, ?_, ?_⟩ <;> intro x hx <;> simp [StoreState.empty] at hx

/-- Appending one status log with a different issue id does not change an
issue's filtered log list. -/
theorem filter_beq_append_ne {logs : List StatusLog} {l : StatusLog} {x : Nat}
    (hne : l.issueId ≠ x) :
    List.filter (fun e => e.issueId == x) (logs ++ [l]) =
      List.filter (fun e => e.issueId == x) logs := by
  rw [List.filter_append]
  simp [List.filter, beq_eq_false_iff_ne.mpr hne]

/-- Appending one status log with a matching issue id appends it to the
issue's filtered log list. -/
theorem filter_beq_append_eq {logs : List StatusLog} {l : StatusLog} {x : Nat}
    (heq : l.issueId = x) :
    List.filter (fun e => e.issueId == x) (logs ++ [l]) =
      List.filter (fun e => e.issueId == x) logs ++ [l] := by
  rw [List.filter_append]
  simp [List.filter, heq]

/-- The store state after a successful `createIssue`. -/
theorem createIssue_state_eq (st : StoreState) (inp : CreateIssueInput) :
    (createIssue st inp).2 =
      { st with
        locations := st.locations ++
          [{ id := st.nextId, latitude := inp.latitude, longitude := inp.longitude,
             address := inp.address }],
        issues := st.issues ++
          [{ id := st.nextId + 1, title := inp.title, description := inp.description,
             category := inp.category.getD IssueCategory.other,
             status := IssueStatus.reported, userId := inp.userId,
             locationId := st.nextId, images := inp.files,
             createdAt := st.nextId + 1 }],
        statusLogs := st.statusLogs ++
          [{ id := st.nextId + 1 + 1, issueId := st.nextId + 1, userId := inp.userId,
             oldStatus := none, newStatus := IssueStatus.reported,
             comment := "Issue reported" }],
        nextId := st.nextId + 1 + 1 + 1 } := rfl

/-- `createIssue` preserves the invariant. -/
theorem createIssue_preserves (st : StoreState) (inp : CreateIssueInput)
    (h : WellFormed st) : WellFormed (createIssue st inp).2 := by
  obtain ⟨hA, hB, hC⟩ := h
  rw [createIssue_state_eq]
  refine ⟨?_, ?_, ?_⟩
  · intro i hi
    simp only [List.mem_append, List.mem_singleton] at hi
    show i.id < st.nextId + 1 + 1 + 1
    rcases hi with hi | rfl
    · have := hA i hi
      omega
    · show st.nextId + 1 < st.nextId + 1 + 1 + 1
      omega
  · intro l hl
    simp only [List.mem_append, List.mem_singleton] at hl
    show l.issueId < st.nextId + 1 + 1 + 1
    rcases hl with hl | rfl
    · have := hB l hl
      omega
    · show st.nextId + 1 < st.nextId + 1 + 1 + 1
      omega
  · intro i hi
    simp only [List.mem_append, List.mem_singleton] at hi
    rcases hi with hi | rfl
    · -- a pre-existing issue: its log list is unchanged by the fresh-id append
      have hlt : i.id < st.nextId := hA i hi
      show auditChain (List.filter (fun e => e.issueId == i.id)
        (st.statusLogs ++ [_])) i.status = true
      rw [filter_beq_append_ne (show st.nextId + 1 ≠ i.id by omega)]
      exact hC i hi
    · -- the fresh issue: its log list is exactly the creation entry
      have hself : ∀ e ∈ st.statusLogs, ¬((e.issueId == st.nextId + 1) = true) := by
        intro e he hbeq
        have := hB e he
        have := eq_of_beq hbeq
        omega
      show auditChain (List.filter (fun e => e.issueId == st.nextId + 1)
        (st.statusLogs ++ [_])) IssueStatus.reported = true
      rw [List.filter_append, List.filter_eq_nil_iff.mpr hself]
      simp [List.filter, auditChain, chainSegment]

/-- The invariant follows from its three components stated over the result
state's projections. -/
theorem wellFormed_of_parts {X : StoreState} {issues : List Issue}
    {logs : List StatusLog} {n : Nat}
    (hI : X.issues = issues) (hL : X.statusLogs = logs) (hN : X.nextId = n)
    (h1 : ∀ i ∈ issues, i.id < n) (h2 : ∀ l ∈ logs, l.issueId < n)
    (h3 : ∀ i ∈ issues,
      auditChain (logs.filter (fun e => e.issueId == i.id)) i.status = true) :
    WellFormed X := by
  subst hI
  subst hL
  subst hN
  exact ⟨h1, h2, h3⟩

/-- `updateIssue` preserves the invariant. -/
theorem updateIssue_preserves (st : StoreState) (user : Principal) (id : Nat)
    (inp : UpdateIssueInput) (h : WellFormed st) :
    WellFormed (updateIssue st user id inp).2 := by
  obtain ⟨hA, hB, hC⟩ := h
  cases hfind : st.issues.find? (fun i => i.id == id) with
  | none =>
    have hst : (updateIssue st user id inp).2 = st := by
      simp only [updateIssue, hfind]
    rw [hst]
    exact ⟨hA, hB, hC⟩
  | some issue =>
    by_cases hcond : issue.userId ≠ user.id ∧ user.role ≠ Role.admin
    · have hst : (updateIssue st user id inp).2 = st := by
        simp only [updateIssue, hfind, if_pos hcond]
      rw [hst]
      exact ⟨hA, hB, hC⟩
    · have hidIss : issue.id = id := by simpa using List.find?_some hfind
      have hmemIss : issue ∈ st.issues := List.mem_of_find?_eq_some hfind
      have hltIss : issue.id < st.nextId := hA issue hmemIss
      cases hstat : inp.status with
      | none =>
        have hI : (updateIssue st user id inp).2.issues =
            st.issues.map (fun i : Issue => if i.id == id then
              { issue with
                title := strOr inp.title issue.title,
                description := strOr inp.description issue.description,
                category := inp.category.getD issue.category,
                status := issue.status,
                images :=
                  match inp.files with
                  | some fs => issue.images ++ fs
                  | none => issue.images }
              else i) := by
          simp only [updateIssue, hfind, if_neg hcond, hstat, Option.getD_none]
          split <;> split <;> rfl
        have hL : (updateIssue st user id inp).2.statusLogs = st.statusLogs := by
          simp only [updateIssue, hfind, if_neg hcond, hstat]
          split <;> rfl
        have hN : (updateIssue st user id inp).2.nextId = st.nextId := by
          simp only [updateIssue, hfind, if_neg hcond, hstat]
          split <;> rfl
        refine wellFormed_of_parts hI hL hN ?_ hB ?_
        · intro x hx
          obtain ⟨i, hi, rfl⟩ := List.mem_map.mp hx
          by_cases hc : (i.id == id) = true
          · rw [if_pos hc]
            exact hltIss
          · rw [if_neg hc]
            exact hA i hi
        · intro x hx
          obtain ⟨i, hi, rfl⟩ := List.mem_map.mp hx
          by_cases hc : (i.id == id) = true
          · rw [if_pos hc]
            exact hC issue hmemIss
          · rw [if_neg hc]
            exact hC i hi
      | some s =>
        by_cases hsame : s = issue.status
        · have hI : (updateIssue st user id inp).2.issues =
              st.issues.map (fun i : Issue => if i.id == id then
                { issue with
                  title := strOr inp.title issue.title,
                  description := strOr inp.description issue.description,
                  category := inp.category.getD issue.category,
                  status := s,
                  images :=
                    match inp.files with
                    | some fs => issue.images ++ fs
                    | none => issue.images }
                else i) := by
            simp only [updateIssue, hfind, if_neg hcond, hstat, Option.getD_some,
              if_neg (show ¬(s ≠ issue.status) from fun hc => hc hsame)]
            split <;> split <;> rfl
          have hL : (updateIssue st user id inp).2.statusLogs = st.statusLogs := by
            simp only [updateIssue, hfind, if_neg hcond, hstat,
              if_neg (show ¬(s ≠ issue.status) from fun hc => hc hsame)]
            split <;> rfl
          have hN : (updateIssue st user id inp).2.nextId = st.nextId := by
            simp only [updateIssue, hfind, if_neg hcond, hstat,
              if_neg (show ¬(s ≠ issue.status) from fun hc => hc hsame)]
            split <;> rfl
          refine wellFormed_of_parts hI hL hN ?_ hB ?_
          · intro x hx
            obtain ⟨i, hi, rfl⟩ := List.mem_map.mp hx
            by_cases hc : (i.id == id) = true
            · rw [if_pos hc]
              exact hltIss
            · rw [if_neg hc]
              exact hA i hi
          · intro x hx
            obtain ⟨i, hi, rfl⟩ := List.mem_map.mp hx
            by_cases hc : (i.id == id) = true
            · rw [if_pos hc]
              show auditChain (st.statusLogs.filter
                (fun e => e.issueId == issue.id)) s = true
              rw [hsame]
              exact hC issue hmemIss
            · rw [if_neg hc]
              exact hC i hi
        · -- a genuine status change: a log is appended and the status replaced
          have hI : (updateIssue st user id inp).2.issues =
              st.issues.map (fun i : Issue => if i.id == id then
                { issue with
                  title := strOr inp.title issue.title,
                  description := strOr inp.description issue.description,
                  category := inp.category.getD issue.category,
                  status := s,
                  images :=
                    match inp.files with
                    | some fs => issue.images ++ fs
                    | none => issue.images }
                else i) := by
            simp only [updateIssue, hfind, if_neg hcond, hstat, Option.getD_some,
              if_pos (show s ≠ issue.status from hsame)]
            split <;> split <;> rfl
          have hL : (updateIssue st user id inp).2.statusLogs = st.statusLogs ++
              [{ id := st.nextId, issueId := issue.id, userId := user.id,
                 oldStatus := some issue.status, newStatus := s,
                 comment := strOr inp.statusComment
                   ("Status updated from " ++ statusText issue.status ++
                    " to " ++ statusText s) }] := by
            simp only [updateIssue, hfind, if_neg hcond, hstat,
              if_pos (show s ≠ issue.status from hsame)]
            split <;> rfl
          have hN : (updateIssue st user id inp).2.nextId = st.nextId + 1 := by
            simp only [updateIssue, hfind, if_neg hcond, hstat,
              if_pos (show s ≠ issue.status from hsame)]
            split <;> rfl
          refine wellFormed_of_parts hI hL hN ?_ ?_ ?_
          · intro x hx
            obtain ⟨i, hi, rfl⟩ := List.mem_map.mp hx
            by_cases hc : (i.id == id) = true
            · rw [if_pos hc]
              show issue.id < st.nextId + 1
              omega
            · rw [if_neg hc]
              have := hA i hi
              omega
          · intro l hl
            simp only [List.mem_append, List.mem_singleton] at hl
            rcases hl with hl | rfl
            · have := hB l hl
              omega
            · show issue.id < st.nextId + 1
              omega
          · intro x hx
            obtain ⟨i, hi, rfl⟩ := List.mem_map.mp hx
            by_cases hc : (i.id == id) = true
            · rw [if_pos hc]
              show auditChain (List.filter (fun e => e.issueId == issue.id)
                (st.statusLogs ++ [_])) s = true
              rw [List.filter_append]
              have hsingle : List.filter (fun e : StatusLog => e.issueId == issue.id)
                  [{ id := st.nextId, issueId := issue.id, userId := user.id,
                     oldStatus := some issue.status, newStatus := s,
                     comment := strOr inp.statusComment
                       ("Status updated from " ++ statusText issue.status ++
                        " to " ++ statusText s) }] =
                  [{ id := st.nextId, issueId := issue.id, userId := user.id,
                     oldStatus := some issue.status, newStatus := s,
                     comment := strOr inp.statusComment
                       ("Status updated from " ++ statusText issue.status ++
                        " to " ++ statusText s) }] := by
                simp [List.filter]
              rw [hsingle]
              exact auditChain_append _ (hC issue hmemIss) rfl rfl
            · rw [if_neg hc]
              have hxne : i.id ≠ id := fun hcontra => hc (beq_iff_eq.mpr hcontra)
              have hne : issue.id ≠ i.id := by omega
              show auditChain (List.filter (fun e => e.issueId == i.id)
                (st.statusLogs ++ [_])) i.status = true
              rw [filter_beq_append_ne hne]
              exact hC i hi

/-- Every state reached from a well-formed state by lifecycle operations is
well-formed. -/
theorem runOps_wellFormed (st : StoreState) (ops : List LifecycleOp)
    (h : WellFormed st) : WellFormed (runOps st ops) := by
  induction ops generalizing st with
  | nil => exact h
  | cons op ops ih =>
    cases op with
    | create inp => exact ih _ (createIssue_preserves _ inp h)
    | update user id inp => exact ih _ (updateIssue_preserves _ user id inp h)

/-- C1: after any sequence of `createIssue` and `updateIssue` operations from
the empty store, replaying any stored Issue's StatusLog rows in creation order
yields a chain whose first entry has `oldStatus = null` and
`newStatus = reported`, each later entry's `oldStatus` equals the previous
entry's `newStatus`, and the last `newStatus` equals the Issue's current
status. -/
theorem audit_chain_invariant (ops : List LifecycleOp) (i : Issue)
    (hmem : i ∈ (runOps StoreState.empty ops).issues) :
    auditChain (logsFor (runOps StoreState.empty ops) i.id) i.status = true :=
  (runOps_wellFormed StoreState.empty ops wellFormed_empty).2.2 i hmem

/-- Witness for C1: one `createIssue` on the empty store stores an issue whose
log replay is a correct chain. -/
theorem audit_chain_invariant_witness :
    createdIssue1 ∈ (runOps StoreState.empty [LifecycleOp.create sampleCreateInp]).issues ∧
    auditChain (logsFor (runOps StoreState.empty [LifecycleOp.create sampleCreateInp])
      createdIssue1.id) createdIssue1.status = true := by
  have hmem : createdIssue1 ∈
      (runOps StoreState.empty [LifecycleOp.create sampleCreateInp]).issues := by
    show createdIssue1 ∈ [createdIssue1]
    exact List.mem_singleton.mpr rfl
  exact ⟨hmem,
    audit_chain_invariant [LifecycleOp.create sampleCreateInp] createdIssue1 hmem⟩

/-! ## Claims C2 and C3: geospatial facts -/

/-- `atan2` of `(sin t, cos t)` for `t` in `[0, π/2]` recovers `t`. -/
theorem atan2_sin_cos {t : ℝ} (h0 : 0 ≤ t) (h2 : t ≤ Real.pi / 2) :
    atan2 (Real.sin t) (Real.cos t) = t := by
  rcases lt_or_eq_of_le h2 with hlt | heq
  · have hcos : 0 < Real.cos t :=
      Real.cos_pos_of_mem_Ioo ⟨by linarith [Real.pi_pos], hlt⟩
    rw [atan2, if_pos hcos, ← Real.tan_eq_sin_div_cos]
    exact Real.arctan_tan (by linarith [Real.pi_pos]) hlt
  · rw [heq, Real.sin_pi_div_two, Real.cos_pi_div_two]
    norm_num [atan2]

/-- On a meridian (equal longitudes) the Haversine formula evaluates exactly to
the Earth radius times the latitude difference in radians. -/
theorem calculateDistance_same_lon (lat1 lat2 lon : ℝ) (hle : lat1 ≤ lat2)
    (hrange : lat2 - lat1 ≤ 180) :
    calculateDistance lat1 lon lat2 lon =
      EARTH_RADIUS_KM * toRadians (lat2 - lat1) := by
  have hpi := Real.pi_pos
  have hsub : 0 ≤ lat2 - lat1 := by linarith
  have ht0 : 0 ≤ toRadians (lat2 - lat1) / 2 := by
    unfold toRadians
    positivity
  have htle : toRadians (lat2 - lat1) / 2 ≤ Real.pi / 2 := by
    unfold toRadians
    nlinarith [mul_nonneg (sub_nonneg.mpr hrange) hpi.le]
  have hsin : 0 ≤ Real.sin (toRadians (lat2 - lat1) / 2) :=
    Real.sin_nonneg_of_nonneg_of_le_pi ht0 (by linarith)
  have hcos : 0 ≤ Real.cos (toRadians (lat2 - lat1) / 2) :=
    Real.cos_nonneg_of_mem_Icc ⟨by linarith, htle⟩
  have hzero : toRadians (lon - lon) = 0 := by
    rw [sub_self]
    unfold toRadians
    ring
  unfold calculateDistance
  rw [hzero]
  simp only [zero_div, Real.sin_zero, mul_zero, add_zero]
  rw [Real.sqrt_mul_self hsin]
  rw [show (1 : ℝ) - Real.sin (toRadians (lat2 - lat1) / 2) *
      Real.sin (toRadians (lat2 - lat1) / 2) =
      Real.cos (toRadians (lat2 - lat1) / 2) * Real.cos (toRadians (lat2 - lat1) / 2) by
    linear_combination -Real.sin_sq_add_cos_sq (toRadians (lat2 - lat1) / 2)]
  rw [Real.sqrt_mul_self hcos]
  rw [atan2_sin_cos ht0 htle]
  ring

/-- Core bound: the doubled `atan2` angle dominates `2 u` whenever the
haversine value dominates `sin² u`. -/
theorem dist_core_lower (A u : ℝ) (hu0 : 0 ≤ u) (hu2 : u ≤ Real.pi / 2)
    (hA_lb : Real.sin u * Real.sin u ≤ A) :
    2 * u ≤ 2 * atan2 (Real.sqrt A) (Real.sqrt (1 - A)) := by
  have hpi := Real.pi_pos
  suffices h : u ≤ atan2 (Real.sqrt A) (Real.sqrt (1 - A)) by linarith
  by_cases hpos : 0 < Real.sqrt (1 - A)
  · have hsinu : 0 ≤ Real.sin u :=
      Real.sin_nonneg_of_nonneg_of_le_pi hu0 (by linarith)
    have hsq_lb : Real.sin u ≤ Real.sqrt A := by
      rw [show Real.sin u = Real.sqrt (Real.sin u * Real.sin u) from
        (Real.sqrt_mul_self hsinu).symm]
      exact Real.sqrt_le_sqrt hA_lb
    have hcosu : 0 ≤ Real.cos u :=
      Real.cos_nonneg_of_mem_Icc ⟨by linarith, hu2⟩
    have hsq_ub : Real.sqrt (1 - A) ≤ Real.cos u := by
      have h1A : 1 - A ≤ Real.cos u * Real.cos u := by
        have hid := Real.sin_sq_add_cos_sq u
        nlinarith
      calc Real.sqrt (1 - A) ≤ Real.sqrt (Real.cos u * Real.cos u) :=
            Real.sqrt_le_sqrt h1A
        _ = Real.cos u := Real.sqrt_mul_self hcosu
    have hcospos : 0 < Real.cos u := lt_of_lt_of_le hpos hsq_ub
    have hult : u < Real.pi / 2 := by
      rcases lt_or_eq_of_le hu2 with h | h
      · exact h
      · exfalso
        rw [h, Real.cos_pi_div_two] at hcospos
        exact lt_irrefl 0 hcospos
    rw [atan2, if_pos hpos]
    have htan : Real.tan u ≤ Real.sqrt A / Real.sqrt (1 - A) := by
      rw [Real.tan_eq_sin_div_cos, div_le_div_iff₀ hcospos hpos]
      nlinarith [Real.sqrt_nonneg A, Real.sqrt_nonneg (1 - A),
        mul_le_mul_of_nonneg_right hsq_lb (Real.sqrt_nonneg (1 - A)),
        mul_le_mul_of_nonneg_left hsq_ub (Real.sqrt_nonneg A)]
    calc u = Real.arctan (Real.tan u) := (Real.arctan_tan (by linarith) hult).symm
      _ ≤ Real.arctan (Real.sqrt A / Real.sqrt (1 - A)) :=
          Real.arctan_strictMono.monotone htan
  · have h0 : Real.sqrt (1 - A) = 0 :=
      le_antisymm (not_lt.mp hpos) (Real.sqrt_nonneg _)
    have hA1 : 1 ≤ A := by
      by_contra hc
      push_neg at hc
      exact hpos (Real.sqrt_pos.mpr (by linarith))
    have hsqA : 0 < Real.sqrt A := Real.sqrt_pos.mpr (by linarith)
    rw [h0]
    have hval : atan2 (Real.sqrt A) 0 = Real.pi / 2 := by
      rw [atan2]
      norm_num [hsqA]
    rw [hval]
    linarith

/-- The Haversine distance dominates the Earth-radius-scaled absolute latitude
difference, for latitudes within range. -/
theorem calculateDistance_lat_lower_bound (lat1 lon1 lat2 lon2 : ℝ)
    (h1 : -90 ≤ lat1) (h2 : lat1 ≤ 90) (h3 : -90 ≤ lat2) (h4 : lat2 ≤ 90) :
    EARTH_RADIUS_KM * |toRadians (lat2 - lat1)| ≤
      calculateDistance lat1 lon1 lat2 lon2 := by
  have hpi := Real.pi_pos
  have hcos1 : 0 ≤ Real.cos (toRadians lat1) := by
    apply Real.cos_nonneg_of_mem_Icc
    constructor <;> (unfold toRadians; nlinarith)
  have hcos2 : 0 ≤ Real.cos (toRadians lat2) := by
    apply Real.cos_nonneg_of_mem_Icc
    constructor <;> (unfold toRadians; nlinarith)
  have habs : |toRadians (lat2 - lat1)| = 2 * |toRadians (lat2 - lat1) / 2| := by
    rw [abs_div]
    rw [abs_of_nonneg (by norm_num : (0:ℝ) ≤ 2)]
    ring
  have hsinsq : Real.sin |toRadians (lat2 - lat1) / 2| *
      Real.sin |toRadians (lat2 - lat1) / 2| =
      Real.sin (toRadians (lat2 - lat1) / 2) *
        Real.sin (toRadians (lat2 - lat1) / 2) := by
    rcases abs_cases (toRadians (lat2 - lat1) / 2) with ⟨heq, _⟩ | ⟨heq, _⟩
    · rw [heq]
    · rw [heq, Real.sin_neg]
      ring
  have hdabs : |toRadians (lat2 - lat1)| ≤ Real.pi := by
    rw [abs_le]
    constructor <;> (unfold toRadians; nlinarith)
  have hu2 : |toRadians (lat2 - lat1) / 2| ≤ Real.pi / 2 := by
    rw [abs_div, abs_of_nonneg (by norm_num : (0:ℝ) ≤ 2)]
    linarith
  unfold calculateDistance
  rw [habs]
  apply mul_le_mul_of_nonneg_left _
    (by norm_num [EARTH_RADIUS_KM] : (0:ℝ) ≤ EARTH_RADIUS_KM)
  apply dist_core_lower _ _ (abs_nonneg _) hu2
  rw [hsinsq]
  nlinarith [mul_nonneg (mul_nonneg hcos1 hcos2)
    (mul_self_nonneg (Real.sin (toRadians (lon2 - lon1) / 2)))]

/-- The exact Haversine distance from the origin to latitude 1.001 on the prime
meridian does not exceed 111.32 km. -/
theorem dist_1001_le : calculateDistance 0 0 1.001 0 ≤ 111.32 := by
  rw [calculateDistance_same_lon 0 1.001 0 (by norm_num) (by norm_num)]
  unfold EARTH_RADIUS_KM toRadians
  nlinarith [Real.pi_lt_d6]

/-- C2 counterexample: with the code's constant (1 degree latitude per 111.32
km, larger than the true 111.195 km), the point at latitude 1.001 lies within
the 111.32 km circle around the origin but outside the bounding box's latitude
range, so the box is not a superset of the circle. -/
theorem boundingBox_not_superset_counterexample :
    calculateDistance 0 0 1.001 0 ≤ 111.32 ∧
    ¬((1.001 : ℝ) ≤ (calculateBoundingBox 0 0 111.32).2.2.1) := by
  constructor
  · exact dist_1001_le
  · intro hc
    rw [show (calculateBoundingBox 0 0 111.32).2.2.1 =
      (0:ℝ) + 111.32 * (1 / 111.32) from rfl] at hc
    norm_num at hc

/-- C2 (amended): for every valid center and radius, every location whose
Haversine distance from the center is at most `0.9988 * radiusKm` has its
latitude inside the box's latitude range `[lat - latDelta, lat + latDelta]`;
the unscaled superset property of the claim fails (see the counterexample), and
no longitude containment is claimed (it fails near the poles where
`cos lat → 0`). -/
theorem boundingBox_latitude_containment (lat lon lat2 lon2 r : ℝ)
    (h1 : -90 ≤ lat) (h2 : lat ≤ 90) (h3 : -90 ≤ lat2) (h4 : lat2 ≤ 90) (hr : 0 < r)
    (hd : calculateDistance lat lon lat2 lon2 ≤ 0.9988 * r) :
    (calculateBoundingBox lat lon r).1 ≤ lat2 ∧
      lat2 ≤ (calculateBoundingBox lat lon r).2.2.1 := by
  have hpi62 := Real.pi_gt_d6
  have hlow := calculateDistance_lat_lower_bound lat lon lat2 lon2 h1 h2 h3 h4
  have h5 : EARTH_RADIUS_KM * |toRadians (lat2 - lat)| ≤ 0.9988 * r :=
    le_trans hlow hd
  have hkey : |lat2 - lat| ≤ r / 111.32 := by
    unfold EARTH_RADIUS_KM toRadians at h5
    rw [abs_mul, abs_of_pos (by positivity : (0:ℝ) < Real.pi / 180)] at h5
    have hprod : 3.141592 * |lat2 - lat| ≤ Real.pi * |lat2 - lat| :=
      mul_le_mul_of_nonneg_right hpi62.le (abs_nonneg _)
    rw [le_div_iff₀ (by norm_num : (0:ℝ) < 111.32)]
    nlinarith [h5, hprod, hr.le, abs_nonneg (lat2 - lat)]
  have hbox1 : (calculateBoundingBox lat lon r).1 = lat - r * (1 / 111.32) := rfl
  have hbox2 : (calculateBoundingBox lat lon r).2.2.1 = lat + r * (1 / 111.32) := rfl
  rw [hbox1, hbox2]
  have hkey2 : |lat2 - lat| ≤ r * (1 / 111.32) := by
    rw [mul_one_div]
    exact hkey
  have h6 := abs_le.mp hkey2
  constructor <;> linarith [h6.1, h6.2]

/-- Witness for C2's amended theorem at the origin with radius 1. -/
theorem boundingBox_latitude_containment_witness :
    ((-90:ℝ) ≤ 0 ∧ (0:ℝ) ≤ 90 ∧ (0:ℝ) < 1 ∧
      calculateDistance 0 0 0 0 ≤ 0.9988 * 1) ∧
    ((calculateBoundingBox 0 0 1).1 ≤ 0 ∧
      (0:ℝ) ≤ (calculateBoundingBox 0 0 1).2.2.1) := by
  have hd : calculateDistance 0 0 0 0 ≤ 0.9988 * 1 := by
    rw [calculateDistance_same_lon 0 0 0 le_rfl (by norm_num)]
    unfold EARTH_RADIUS_KM toRadians
    norm_num
  exact ⟨⟨by norm_num, by norm_num, by norm_num, hd⟩,
    boundingBox_latitude_containment 0 0 0 0 1 (by norm_num) (by norm_num)
      (by norm_num) (by norm_num) (by norm_num) hd⟩

open Classical in
/-- C3 (amended): `getNearbyIssues` returns exactly the issues whose owned
location survives **both** the bounding-box pre-filter and the Haversine radius
filter (as a permutation of that filtered list, so nothing else is included or
excluded), ordered newest-reported-first.  The claim's radius-only
characterization fails because the box is not a superset of the circle (see
the counterexample). -/
theorem getNearbyIssues_exactly_box_and_radius (st : StoreState) (lat lng radiusKm : ℝ) :
    List.Perm (getNearbyIssues st lat lng radiusKm)
      (st.issues.filter (fun i => decide (NearbyCandidate st lat lng radiusKm i))) ∧
    List.Sorted newerFirst (getNearbyIssues st lat lng radiusKm) := by
  have hg : getNearbyIssues st lat lng radiusKm =
      List.insertionSort newerFirst (st.issues.filter (fun i =>
        (((st.locations.filter (fun loc =>
            decide (inBoundingBox (calculateBoundingBox lat lng radiusKm) loc))).filter
          (fun loc => decide (calculateDistance lat lng (loc.latitude : ℝ)
            (loc.longitude : ℝ) ≤ radiusKm))).map Location.id).contains i.locationId)) :=
    rfl
  constructor
  · rw [hg]
    refine (List.perm_insertionSort newerFirst _).trans ?_
    rw [List.filter_congr ?_]
    intro i _
    rw [Bool.eq_iff_iff, decide_eq_true_eq]
    rw [List.contains, List.elem_iff]
    constructor
    · intro hmem
      obtain ⟨loc, hloc, hid⟩ := List.mem_map.mp hmem
      have h1 := List.mem_filter.mp hloc
      have h2 := List.mem_filter.mp h1.1
      exact ⟨loc, h2.1, hid, of_decide_eq_true h2.2, of_decide_eq_true h1.2⟩
    · intro hcand
      obtain ⟨loc, hloc, hid, hbox, hdist⟩ := hcand
      refine List.mem_map.mpr ⟨loc, ?_, hid⟩
      exact List.mem_filter.mpr ⟨List.mem_filter.mpr ⟨hloc, decide_eq_true hbox⟩,
        decide_eq_true hdist⟩
  · rw [hg]
    exact List.sorted_insertionSort newerFirst _

open Classical in
/-- C3 counterexample: the issue at latitude 1.001 is within 111.32 km of the
origin, yet `getNearbyIssues` at the origin with radius 111.32 excludes it (the
bounding-box pre-filter drops its location), so the result is not exactly the
set of issues within the radius. -/
theorem nearby_excludes_within_radius_counterexample :
    ((nearLocation.latitude : ℝ) = 1.001 ∧ (nearLocation.longitude : ℝ) = 0) ∧
    calculateDistance 0 0 1.001 0 ≤ 111.32 ∧
    getNearbyIssues nearState 0 0 111.32 = [] := by
  have hcast : ((nearLocation.latitude : ℝ) = 1.001 ∧
      (nearLocation.longitude : ℝ) = 0) := by
    constructor <;> norm_num [nearLocation]
  refine ⟨hcast, dist_1001_le, ?_⟩
  have hnb : ¬ inBoundingBox (calculateBoundingBox 0 0 111.32) nearLocation := by
    intro hc
    have h2 := hc.2.1
    rw [hcast.1] at h2
    rw [show (calculateBoundingBox 0 0 111.32).2.2.1 =
      (0:ℝ) + 111.32 * (1 / 111.32) from rfl] at h2
    norm_num at h2
  show List.insertionSort newerFirst (nearState.issues.filter (fun i =>
      (((nearState.locations.filter (fun loc =>
          decide (inBoundingBox (calculateBoundingBox 0 0 111.32) loc))).filter
        (fun loc => decide (calculateDistance 0 0 (loc.latitude : ℝ)
          (loc.longitude : ℝ) ≤ 111.32))).map Location.id).contains i.locationId)) = []
  rw [show nearState.locations = [nearLocation] from rfl]
  rw [show List.filter (fun loc =>
      decide (inBoundingBox (calculateBoundingBox 0 0 111.32) loc)) [nearLocation] =
      [] by simp [List.filter, decide_eq_false hnb]]
  rfl

end Civitrack
